import Mathlib

/-!
Shallow embedding of the XFS delayed-attribute intent/done log item code
(src/fs/xfs/xfs_attr_item.c and xfs_attr_item.h), covering the ATTRI/ATTRD
record lifecycle, wire marshalling, validation and recovery replay.

The primary embedding follows the 2021 revision of xfs_attr_item.c (the first
copy in the file).  Where a claim cites the older revisions also present in
the tree (the second copy of xfs_attr_item.c, and src/unnamed/part_000), those
routines are embedded separately under names marked `v2` / `part000`.

Machine integers: the C code uses 32/64-bit fields whose arithmetic never
nears overflow in the embedded routines (lengths bounded by XATTR limits,
counters incremented by one), so they are modelled as Nat; errno-style results
are modelled as Int with the kernel's negative-error convention.
-/

namespace Xfs

/-- Modelled from the spec: op kind tags {SET, REMOVE} of the intent format
(declared in xfs_log_format.h, which is not under src/). -/
def XFS_ATTR_OP_FLAGS_SET : Nat := 1

/-- Modelled from the spec: op kind tag for a REMOVE operation. -/
def XFS_ATTR_OP_FLAGS_REMOVE : Nat := 2

/-- Modelled from the spec: maximum extended-attribute value length
("value_len over the maximum"); Linux XATTR_SIZE_MAX. -/
def XATTR_SIZE_MAX : Nat := 65536

/-- Modelled from the spec: maximum extended-attribute name length;
Linux XATTR_NAME_MAX. -/
def XATTR_NAME_MAX : Nat := 255

/-- errno value of EFSCORRUPTED; functions return its negation. -/
def EFSCORRUPTED : Int := 117

/-- errno value of EAGAIN (the RETRY signal); functions return its negation. -/
def EAGAIN : Int := 11

/-- errno value of ENOMEM; functions return its negation. -/
def ENOMEM : Int := 12

/-- Modelled from the spec: log item type tag of an attr intent record
(XFS_LI_ATTRI, declared in xfs_log_format.h, not under src/). -/
def XFS_LI_ATTRI : Nat := 0x1246

/-- Modelled from the spec: log item type tag of an attr done record. -/
def XFS_LI_ATTRD : Nat := 0x1247

/-- XFS_TRANS_DIRTY flag bit in xfs_trans.t_flags (bit 0, value 0x01). -/
def XFS_TRANS_DIRTY : Nat := 1

/-- Dirty test on a transaction flag word: the XFS_TRANS_DIRTY bit is set. -/
def xfs_trans_is_dirty (t_flags : Nat) : Bool := t_flags.testBit 0

/-- Modelled from the spec: the on-wire intent format
`struct xfs_attri_log_format` (declared in xfs_log_format.h, not under src/):
`{type_tag, size, owner_id:8B, op_kind:4B, value_len:4B, name_len:4B,
flags:4B}` plus the padding word and unique id that the code under src/
reads and writes (`__pad`, `alfi_id`). -/
structure xfs_attri_log_format where
  alfi_type : Nat
  alfi_size : Nat
  __pad : Nat
  alfi_id : Nat
  alfi_ino : Nat
  alfi_op_flags : Nat
  alfi_value_len : Nat
  alfi_name_len : Nat
  alfi_attr_flags : Nat
deriving Repr, DecidableEq

/-- Modelled from the spec: the on-wire done format
`struct xfs_attrd_log_format`: `{type_tag, size, intent_id:8B}`. -/
structure xfs_attrd_log_format where
  alfd_type : Nat
  alfd_size : Nat
  alfd_alf_id : Nat
deriving Repr, DecidableEq

/-- sizeof(struct xfs_attri_log_format): 2+2+4+8+8+4+4+4+4 bytes. -/
def sizeof_xfs_attri_log_format : Nat := 40

/-- In-memory intent item, struct xfs_attri_log_item (xfs_attr_item.h).
The embedded generic log item is represented by its XFS_LI_DIRTY bit
(`attri_li_dirty`); name/value buffers are byte lists. -/
structure xfs_attri_log_item where
  attri_li_dirty : Bool
  attri_refcount : Nat
  attri_flags : Nat
  attri_name_len : Nat
  attri_name : List Nat
  attri_value_len : Nat
  attri_value : List Nat
  attri_format : xfs_attri_log_format
deriving Repr, DecidableEq

/-- In-memory done item, struct xfs_attrd_log_item (xfs_attr_item.h):
a back pointer to its intent plus the wire format. -/
structure xfs_attrd_log_item where
  attrd_li_dirty : Bool
  attrd_attrip : xfs_attri_log_item
  attrd_format : xfs_attrd_log_format
deriving Repr, DecidableEq

/-- Mount state consumed by this subsystem: the delayed-attr feature bit
(xfs_hasdelattr) and the inode-number verifier (xfs_verify_ino), both
collaborator interfaces outside this file. -/
structure xfs_mount where
  hasdelattr : Bool
  ino_ok : Nat → Bool

/-- Collaborator xfs_verify_ino: inode-number validity per the mount. -/
def xfs_verify_ino (mp : xfs_mount) (ino : Nat) : Bool := mp.ino_ok ino

/-- Collaborator xfs_hasdelattr: the delayed-attribute feature test. -/
def xfs_hasdelattr (mp : xfs_mount) : Bool := mp.hasdelattr

/-- xfs_attri_init (xfs_attr_item.c, 2021 revision): allocates the item
zeroed (kmem_alloc_large KM_ZERO), sets alfi_id from the allocation address
and the reference count to 2.  `alloc_addr` stands for the (uintptr_t)
address the C code stores into alfi_id. -/
def xfs_attri_init (mp : xfs_mount) (alloc_addr : Nat) : xfs_attri_log_item :=
  { attri_li_dirty := false
    attri_refcount := 2
    attri_flags := 0
    attri_name_len := 0
    attri_name := []
    attri_value_len := 0
    attri_value := []
    attri_format :=
      { alfi_type := 0
        alfi_size := 0
        __pad := 0
        alfi_id := alloc_addr
        alfi_ino := 0
        alfi_op_flags := 0
        alfi_value_len := 0
        alfi_name_len := 0
        alfi_attr_flags := 0 } }

/-- xfs_attri_release: asserts refcount > 0, decrements it atomically, and
when it reaches zero deletes the item from the AIL and frees it.  `none`
models the freed (AIL-removed) outcome; `some` the still-live item. -/
def xfs_attri_release (attrip : xfs_attri_log_item) : Option xfs_attri_log_item :=
  if attrip.attri_refcount - 1 = 0 then
    none
  else
    some { attrip with attri_refcount := attrip.attri_refcount - 1 }

/-- C1: an ATTRI is born with refcount 2; each release decrements by one;
the item is removed from the AIL and freed exactly when the count reaches
zero, never while it is positive, and the count never goes below zero
(release is only invoked with a positive count, per the ASSERT). -/
theorem attri_refcount_lifecycle (mp : xfs_mount) (addr : Nat)
    (it : xfs_attri_log_item) (h : 0 < it.attri_refcount) :
    (xfs_attri_init mp addr).attri_refcount = 2 ∧
    (xfs_attri_release it = none ↔ it.attri_refcount = 1) ∧
    (∀ it', xfs_attri_release it = some it' →
      it'.attri_refcount = it.attri_refcount - 1 ∧ 0 < it'.attri_refcount) ∧
    (∃ mid, xfs_attri_release (xfs_attri_init mp addr) = some mid ∧
      mid.attri_refcount = 1 ∧ xfs_attri_release mid = none) := by
  refine ⟨rfl, ?_, ?_, ?_⟩
  · constructor
    · intro hrel
      by_contra hne
      have h2 : it.attri_refcount - 1 ≠ 0 := by omega
      simp [xfs_attri_release, h2] at hrel
    · intro h1
      simp [xfs_attri_release, h1]
  · intro it' hrel
    by_cases h0 : it.attri_refcount - 1 = 0
    · simp [xfs_attri_release, h0] at hrel
    · simp [xfs_attri_release, h0] at hrel
      subst hrel
      simp
      omega
  · exact ⟨{ xfs_attri_init mp addr with attri_refcount := 1 },
      by simp [xfs_attri_release, xfs_attri_init], rfl,
      by simp [xfs_attri_release]⟩

/-- Concrete instantiation of the C1 theorem at refcount 2. -/
theorem attri_refcount_lifecycle_witness :
    0 < (xfs_attri_init ⟨true, fun _ => true⟩ 7).attri_refcount ∧
    ((xfs_attri_init ⟨true, fun _ => true⟩ 7).attri_refcount = 2 ∧
    (xfs_attri_release (xfs_attri_init ⟨true, fun _ => true⟩ 7) = none ↔
      (xfs_attri_init ⟨true, fun _ => true⟩ 7).attri_refcount = 1) ∧
    (∀ it', xfs_attri_release (xfs_attri_init ⟨true, fun _ => true⟩ 7) = some it' →
      it'.attri_refcount = (xfs_attri_init ⟨true, fun _ => true⟩ 7).attri_refcount - 1 ∧
      0 < it'.attri_refcount) ∧
    (∃ mid, xfs_attri_release (xfs_attri_init ⟨true, fun _ => true⟩ 7) = some mid ∧
      mid.attri_refcount = 1 ∧ xfs_attri_release mid = none)) :=
  ⟨by decide, attri_refcount_lifecycle ⟨true, fun _ => true⟩ 7
    (xfs_attri_init ⟨true, fun _ => true⟩ 7) (by decide)⟩

/-- Result of xfs_trans_attr_finish_update: the returned error, the updated
transaction flag word, the (possibly null) done item with its dirty bit
possibly set, and whether a set/remove step function was actually invoked. -/
structure finish_update_result where
  error : Int
  trans_t_flags : Nat
  attrdp : Option xfs_attrd_log_item
  step_ran : Bool
deriving Repr, DecidableEq

/-- xfs_trans_attr_finish_update (xfs_attr_item.c, 2021 revision): attaches
quotas (collaborator outcome `dq_err`), dispatches on op_flags to
xfs_attr_set_iter / xfs_attr_remove_iter (collaborator outcomes
`set_iter_err` / `remove_iter_err`; an unknown op yields -EFSCORRUPTED),
then marks the transaction dirty even on error and, when the done item is
non-null, sets its XFS_LI_DIRTY bit. -/
def xfs_trans_attr_finish_update (dq_err set_iter_err remove_iter_err : Int)
    (trans_t_flags : Nat) (attrdp : Option xfs_attrd_log_item)
    (op_flags : Nat) : finish_update_result :=
  if dq_err ≠ 0 then
    { error := dq_err
      trans_t_flags := trans_t_flags
      attrdp := attrdp
      step_ran := false }
  else
    let error :=
      if op_flags = XFS_ATTR_OP_FLAGS_SET then set_iter_err
      else if op_flags = XFS_ATTR_OP_FLAGS_REMOVE then remove_iter_err
      else -EFSCORRUPTED
    { error := error
      trans_t_flags := trans_t_flags ||| XFS_TRANS_DIRTY
      attrdp := attrdp.map (fun d => { d with attrd_li_dirty := true })
      step_ran := op_flags = XFS_ATTR_OP_FLAGS_SET ∨
                  op_flags = XFS_ATTR_OP_FLAGS_REMOVE }

/-- C2: whenever the quota attach succeeds (so the set/remove dispatch runs
and returns success, -EAGAIN, or a failure), xfs_trans_attr_finish_update
marks the transaction dirty on return — for every step outcome, every
op kind (including the corrupt default branch), every prior flag word and
every (even null) done item. -/
theorem finish_update_marks_trans_dirty (set_iter_err remove_iter_err : Int)
    (trans_t_flags : Nat) (attrdp : Option xfs_attrd_log_item) (op_flags : Nat) :
    xfs_trans_is_dirty
      (xfs_trans_attr_finish_update 0 set_iter_err remove_iter_err
        trans_t_flags attrdp op_flags).trans_t_flags = true := by
  simp only [xfs_trans_attr_finish_update]
  norm_num
  simp [xfs_trans_is_dirty, XFS_TRANS_DIRTY, Nat.testBit_or]

/-- xfs_attr_item descriptor fields consumed by xfs_attr_log_item: the op
kind plus the da_args fields it reads (owner inode number, name and value
buffers with their lengths, and the attr filter flags). -/
structure xfs_attr_item where
  xattri_op_flags : Nat
  dp_ino : Nat
  name : List Nat
  namelen : Nat
  value : List Nat
  valuelen : Nat
  attr_filter : Nat
deriving Repr, DecidableEq

/-- xfs_attr_log_item (xfs_attr_item.c, 2021 revision): marks the
transaction and the intent dirty and fills the intent's format fields and
name/value references from the descriptor. -/
def xfs_attr_log_item (tp_t_flags : Nat) (attrip : xfs_attri_log_item)
    (attr : xfs_attr_item) : Nat × xfs_attri_log_item :=
  (tp_t_flags ||| XFS_TRANS_DIRTY,
   { attrip with
       attri_li_dirty := true
       attri_format :=
         { attrip.attri_format with
             alfi_ino := attr.dp_ino
             alfi_op_flags := attr.xattri_op_flags
             alfi_value_len := attr.valuelen
             alfi_name_len := attr.namelen
             alfi_attr_flags := attr.attr_filter }
       attri_name := attr.name
       attri_value := attr.value
       attri_name_len := attr.namelen
       attri_value_len := attr.valuelen })

/-- xfs_attr_create_intent (2021 revision): returns null when the
delayed-attr feature is disabled; otherwise initializes an ATTRI, adds it
to the transaction, and logs every queued descriptor into it. -/
def xfs_attr_create_intent (mp : xfs_mount) (tp_t_flags : Nat)
    (alloc_addr : Nat) (items : List xfs_attr_item) :
    Nat × Option xfs_attri_log_item :=
  if ¬ xfs_hasdelattr mp then (tp_t_flags, none)
  else
    let attrip := xfs_attri_init mp alloc_addr
    let r := items.foldl
      (fun (acc : Nat × xfs_attri_log_item) attr =>
        xfs_attr_log_item acc.1 acc.2 attr)
      (tp_t_flags, attrip)
    (r.1, some r.2)

/-- xfs_trans_get_attrd (2021 revision): allocates a zeroed done item,
points it at the intent, copies the intent's alfi_id into alfd_alf_id, and
adds it to the transaction. -/
def xfs_trans_get_attrd (attrip : xfs_attri_log_item) : xfs_attrd_log_item :=
  { attrd_li_dirty := false
    attrd_attrip := attrip
    attrd_format :=
      { alfd_type := 0
        alfd_size := 0
        alfd_alf_id := attrip.attri_format.alfi_id } }

/-- xfs_attr_create_done (2021 revision): a null intent yields a null done
item without failing; otherwise builds the done item via
xfs_trans_get_attrd. -/
def xfs_attr_create_done (intent : Option xfs_attri_log_item) :
    Option xfs_attrd_log_item :=
  match intent with
  | none => none
  | some attrip => some (xfs_trans_get_attrd attrip)

/-- xfs_attri_item_match (2021 revision): a recovered done record cancels
the intent whose alfi_id equals the done record's stored intent id. -/
def xfs_attri_item_match (attrip : xfs_attri_log_item)
    (intent_id : Nat) : Bool :=
  attrip.attri_format.alfi_id == intent_id

/-- C8: with the delayed-attribute feature disabled, create_intent returns
null without constructing an intent; create_done maps a null intent to a
null done item without failing; and the step wrapper tolerates a null done
item — it still runs the step, marks the transaction dirty and returns the
step's error with no done item to dirty. -/
theorem null_intent_done_tolerance (mp : xfs_mount) (tp_t_flags : Nat)
    (alloc_addr : Nat) (items : List xfs_attr_item)
    (set_iter_err remove_iter_err : Int) (op_flags : Nat)
    (hoff : xfs_hasdelattr mp = false) :
    xfs_attr_create_intent mp tp_t_flags alloc_addr items =
      (tp_t_flags, none) ∧
    xfs_attr_create_done none = none ∧
    (let r := xfs_trans_attr_finish_update 0 set_iter_err remove_iter_err
        tp_t_flags none op_flags
     r.attrdp = none ∧ xfs_trans_is_dirty r.trans_t_flags = true ∧
     r.error = (if op_flags = XFS_ATTR_OP_FLAGS_SET then set_iter_err
       else if op_flags = XFS_ATTR_OP_FLAGS_REMOVE then remove_iter_err
       else -EFSCORRUPTED)) := by
  refine ⟨by simp [xfs_attr_create_intent, hoff], rfl, ?_, ?_, ?_⟩
  · simp [xfs_trans_attr_finish_update]
  · exact finish_update_marks_trans_dirty set_iter_err remove_iter_err
      tp_t_flags none op_flags
  · simp [xfs_trans_attr_finish_update]

/-- Concrete instantiation of the C8 theorem on a feature-disabled mount. -/
theorem null_intent_done_tolerance_witness :
    xfs_hasdelattr ⟨false, fun _ => true⟩ = false ∧
    (xfs_attr_create_intent ⟨false, fun _ => true⟩ 0 7 [] = (0, none) ∧
    xfs_attr_create_done none = none ∧
    (let r := xfs_trans_attr_finish_update 0 (-EAGAIN) 0 0 none
        XFS_ATTR_OP_FLAGS_SET
     r.attrdp = none ∧ xfs_trans_is_dirty r.trans_t_flags = true ∧
     r.error = (if XFS_ATTR_OP_FLAGS_SET = XFS_ATTR_OP_FLAGS_SET then -EAGAIN
       else if XFS_ATTR_OP_FLAGS_SET = XFS_ATTR_OP_FLAGS_REMOVE then 0
       else -EFSCORRUPTED))) :=
  ⟨rfl, null_intent_done_tolerance ⟨false, fun _ => true⟩ 0 7 []
    (-EAGAIN) 0 XFS_ATTR_OP_FLAGS_SET rfl⟩

/-- C10: every done item built by xfs_trans_get_attrd stores its intent's
alfi_id in alfd_alf_id, so xfs_attri_item_match applied to that intent and
the done record's stored id returns true; xfs_attri_init assigns alfi_id
from the (unique) allocation address, so two intents initialized at
distinct addresses carry distinct ids. -/
theorem attrd_id_matches_intent (attrip : xfs_attri_log_item)
    (mp mp' : xfs_mount) (a a' : Nat) (hne : a ≠ a') :
    (xfs_trans_get_attrd attrip).attrd_format.alfd_alf_id =
      attrip.attri_format.alfi_id ∧
    xfs_attri_item_match attrip
      ((xfs_trans_get_attrd attrip).attrd_format.alfd_alf_id) = true ∧
    (xfs_attri_init mp a).attri_format.alfi_id = a ∧
    (xfs_attri_init mp a).attri_format.alfi_id ≠
      (xfs_attri_init mp' a').attri_format.alfi_id := by
  refine ⟨rfl, ?_, rfl, ?_⟩
  · simp [xfs_attri_item_match, xfs_trans_get_attrd]
  · simpa [xfs_attri_init] using hne

/-- Concrete instantiation of the C10 theorem at addresses 3 ≠ 4. -/
theorem attrd_id_matches_intent_witness :
    (3 : Nat) ≠ 4 ∧
    ((xfs_trans_get_attrd (xfs_attri_init ⟨true, fun _ => true⟩ 3)).attrd_format.alfd_alf_id =
      (xfs_attri_init ⟨true, fun _ => true⟩ 3).attri_format.alfi_id ∧
    xfs_attri_item_match (xfs_attri_init ⟨true, fun _ => true⟩ 3)
      ((xfs_trans_get_attrd
        (xfs_attri_init ⟨true, fun _ => true⟩ 3)).attrd_format.alfd_alf_id) = true ∧
    (xfs_attri_init ⟨true, fun _ => true⟩ 3).attri_format.alfi_id = 3 ∧
    (xfs_attri_init ⟨true, fun _ => true⟩ 3).attri_format.alfi_id ≠
      (xfs_attri_init ⟨true, fun _ => true⟩ 4).attri_format.alfi_id) :=
  ⟨by decide, attrd_id_matches_intent (xfs_attri_init ⟨true, fun _ => true⟩ 3)
    ⟨true, fun _ => true⟩ ⟨true, fun _ => true⟩ 3 4 (by decide)⟩

/-- Kernel round_up to a multiple of y (y a power of two in all uses). -/
def round_up (x y : Nat) : Nat := (x + y - 1) / y * y

/-- ATTR_NVEC_SIZE (xfs_attr_item.c, 2021 revision): iovec length for a
name/value payload, 32-bit aligned — `size` itself when it is exactly 4,
otherwise 4 + round_up(size, 4). -/
def ATTR_NVEC_SIZE (size : Nat) : Nat :=
  if size = 4 then size else 4 + round_up size 4

/-- xfs_attri_item_size (2021 revision): returns the (nvecs, nbytes)
increments — one vec for the format, one for the name, and one for the
value only when attri_value_len > 0. -/
def xfs_attri_item_size (attrip : xfs_attri_log_item) : Nat × Nat :=
  let nvecs := 1
  let nbytes := sizeof_xfs_attri_log_format
  let nvecs := nvecs + 1
  let nbytes := nbytes + ATTR_NVEC_SIZE attrip.attri_name_len
  if attrip.attri_value_len > 0 then
    (nvecs + 1, nbytes + ATTR_NVEC_SIZE attrip.attri_value_len)
  else
    (nvecs, nbytes)

/-- xfs_attri_validate (2021 revision): a recovered ATTRI is ok when its op
kind is SET or REMOVE, its value length is at most XATTR_SIZE_MAX, its name
length is nonzero and at most XATTR_NAME_MAX, its owner inode number
verifies, and the delayed-attr feature is enabled. -/
def xfs_attri_validate (mp : xfs_mount) (attrip : xfs_attri_log_item) : Bool :=
  let attrp := attrip.attri_format
  if attrp.alfi_op_flags ≠ XFS_ATTR_OP_FLAGS_SET ∧
     attrp.alfi_op_flags ≠ XFS_ATTR_OP_FLAGS_REMOVE then false
  else if attrp.alfi_value_len > XATTR_SIZE_MAX then false
  else if attrp.alfi_name_len > XATTR_NAME_MAX ∨
          attrp.alfi_name_len = 0 then false
  else if ¬ xfs_verify_ino mp attrp.alfi_ino then false
  else xfs_hasdelattr mp

/-- Collaborator outcomes consumed by xfs_attri_item_recover (2021
revision): the results of xfs_iget, xfs_trans_alloc, the quota attach and
the set/remove iter step. -/
structure attri_recover_env where
  iget_err : Int
  trans_alloc_err : Int
  dq_err : Int
  set_iter_err : Int
  remove_iter_err : Int
deriving Repr, DecidableEq

/-- Observable trace of one xfs_attri_item_recover (2021 revision) call:
final error, number of set/remove step invocations, number of exclusive
inode lock acquisitions, and whether the transaction was cancelled,
captured-and-committed, or left with deferred continuation work. -/
structure attri_recover_trace where
  error : Int
  steps_run : Nat
  ilocks : Nat
  canceled : Bool
  committed : Bool
  deferred : Bool
deriving Repr, DecidableEq

/-- xfs_attri_item_recover (2021 revision): validates the recovered intent
first and discards the whole ATTRI with -EFSCORRUPTED before anything else
runs; then resolves the inode, allocates a transaction, builds the done
item, takes the inode lock and runs one step via
xfs_trans_attr_finish_update — -EAGAIN defers the continuation into the
capture list (error reset to 0), a real error cancels the transaction, and
success captures and commits. -/
def xfs_attri_item_recover (mp : xfs_mount) (attrip : xfs_attri_log_item)
    (env : attri_recover_env) : attri_recover_trace :=
  if ¬ xfs_attri_validate mp attrip then
    { error := -EFSCORRUPTED, steps_run := 0, ilocks := 0,
      canceled := false, committed := false, deferred := false }
  else if env.iget_err ≠ 0 then
    { error := env.iget_err, steps_run := 0, ilocks := 0,
      canceled := false, committed := false, deferred := false }
  else if env.trans_alloc_err ≠ 0 then
    { error := env.trans_alloc_err, steps_run := 0, ilocks := 0,
      canceled := false, committed := false, deferred := false }
  else
    let done_item := xfs_trans_get_attrd attrip
    let fu := xfs_trans_attr_finish_update env.dq_err env.set_iter_err
      env.remove_iter_err 0 (some done_item)
      attrip.attri_format.alfi_op_flags
    let steps := if fu.step_ran then 1 else 0
    if fu.error = -EAGAIN then
      { error := 0, steps_run := steps, ilocks := 1,
        canceled := false, committed := true, deferred := true }
    else if fu.error ≠ 0 then
      { error := fu.error, steps_run := steps, ilocks := 1,
        canceled := true, committed := false, deferred := false }
    else
      { error := 0, steps_run := steps, ilocks := 1,
        canceled := false, committed := true, deferred := false }

/-- Characterization of xfs_attri_validate: it accepts exactly the intents
whose op kind is SET or REMOVE, whose lengths are within bounds with a
nonzero name, whose owner inode verifies, and when the feature is on. -/
theorem xfs_attri_validate_eq_true (mp : xfs_mount)
    (attrip : xfs_attri_log_item) :
    xfs_attri_validate mp attrip = true ↔
      ((attrip.attri_format.alfi_op_flags = XFS_ATTR_OP_FLAGS_SET ∨
        attrip.attri_format.alfi_op_flags = XFS_ATTR_OP_FLAGS_REMOVE) ∧
       attrip.attri_format.alfi_value_len ≤ XATTR_SIZE_MAX ∧
       attrip.attri_format.alfi_name_len ≤ XATTR_NAME_MAX ∧
       attrip.attri_format.alfi_name_len ≠ 0 ∧
       xfs_verify_ino mp attrip.attri_format.alfi_ino = true ∧
       xfs_hasdelattr mp = true) := by
  simp only [xfs_attri_validate]
  split_ifs with h1 h2 h3 h4
  · simp only [Bool.false_eq_true, false_iff]
    rintro ⟨hop, _⟩
    tauto
  · simp only [Bool.false_eq_true, false_iff]
    rintro ⟨_, hv, _⟩
    omega
  · simp only [Bool.false_eq_true, false_iff]
    rintro ⟨_, _, hn, hnz, _⟩
    rcases h3 with h | h
    · omega
    · exact hnz h
  · push_neg at h1 h3
    constructor
    · intro hdel
      refine ⟨?_, by omega, by omega, h3.2, h4, hdel⟩
      by_cases hs : attrip.attri_format.alfi_op_flags = XFS_ATTR_OP_FLAGS_SET
      · exact Or.inl hs
      · exact Or.inr (h1 hs)
    · rintro ⟨_, _, _, _, _, hdel⟩
      exact hdel
  · simp only [Bool.false_eq_true, false_iff]
    rintro ⟨_, _, _, _, hino, _⟩
    exact h4 hino

/-- C3: a recovered intent whose op kind is neither SET nor REMOVE, whose
value length exceeds XATTR_SIZE_MAX, whose name length is zero or exceeds
XATTR_NAME_MAX, or whose owner inode number is invalid fails
xfs_attri_validate, and xfs_attri_item_recover then discards the entire
intent with -EFSCORRUPTED before any replay step runs: no step invocation,
no lock, no cancel, no commit, no deferred work. -/
theorem recover_discards_invalid_intent (mp : xfs_mount)
    (attrip : xfs_attri_log_item) (env : attri_recover_env)
    (hbad : (attrip.attri_format.alfi_op_flags ≠ XFS_ATTR_OP_FLAGS_SET ∧
             attrip.attri_format.alfi_op_flags ≠ XFS_ATTR_OP_FLAGS_REMOVE) ∨
            attrip.attri_format.alfi_value_len > XATTR_SIZE_MAX ∨
            attrip.attri_format.alfi_name_len = 0 ∨
            attrip.attri_format.alfi_name_len > XATTR_NAME_MAX ∨
            xfs_verify_ino mp attrip.attri_format.alfi_ino = false) :
    xfs_attri_validate mp attrip = false ∧
    xfs_attri_item_recover mp attrip env =
      { error := -EFSCORRUPTED, steps_run := 0, ilocks := 0,
        canceled := false, committed := false, deferred := false } := by
  have hval : xfs_attri_validate mp attrip = false := by
    cases hv : xfs_attri_validate mp attrip with
    | false => rfl
    | true =>
      exfalso
      obtain ⟨hop, hvl, hnl, hnz, hino, _⟩ :=
        (xfs_attri_validate_eq_true mp attrip).mp hv
      rcases hbad with ⟨h1, h2⟩ | h | h | h | h
      · tauto
      · omega
      · exact hnz h
      · omega
      · simp [hino] at h
  refine ⟨hval, ?_⟩
  simp [xfs_attri_item_recover, hval]

/-- Concrete instantiation of the C3 theorem at an intent with an unknown
op kind. -/
theorem recover_discards_invalid_intent_witness :
    (((xfs_attri_init ⟨true, fun _ => true⟩ 9).attri_format.alfi_op_flags ≠
        XFS_ATTR_OP_FLAGS_SET ∧
      (xfs_attri_init ⟨true, fun _ => true⟩ 9).attri_format.alfi_op_flags ≠
        XFS_ATTR_OP_FLAGS_REMOVE) ∨
     (xfs_attri_init ⟨true, fun _ => true⟩ 9).attri_format.alfi_value_len >
        XATTR_SIZE_MAX ∨
     (xfs_attri_init ⟨true, fun _ => true⟩ 9).attri_format.alfi_name_len = 0 ∨
     (xfs_attri_init ⟨true, fun _ => true⟩ 9).attri_format.alfi_name_len >
        XATTR_NAME_MAX ∨
     xfs_verify_ino ⟨true, fun _ => true⟩
       (xfs_attri_init ⟨true, fun _ => true⟩ 9).attri_format.alfi_ino = false) ∧
    (xfs_attri_validate ⟨true, fun _ => true⟩
       (xfs_attri_init ⟨true, fun _ => true⟩ 9) = false ∧
     xfs_attri_item_recover ⟨true, fun _ => true⟩
       (xfs_attri_init ⟨true, fun _ => true⟩ 9) ⟨0, 0, 0, 0, 0⟩ =
       { error := -EFSCORRUPTED, steps_run := 0, ilocks := 0,
         canceled := false, committed := false, deferred := false }) :=
  ⟨Or.inl ⟨by decide, by decide⟩,
   recover_discards_invalid_intent ⟨true, fun _ => true⟩
     (xfs_attri_init ⟨true, fun _ => true⟩ 9) ⟨0, 0, 0, 0, 0⟩
     (Or.inl ⟨by decide, by decide⟩)⟩

/-- Validity check at the top of xfs_attri_recover in src/unnamed/part_000
(the 2017 revision of the recovery replayer): the ATTRI is released and
tossed with -EIO (`some (-5)`) when the op kind is neither SET nor REMOVE,
a length exceeds its maximum, a SET has a zero value length or zero name
length, or a REMOVE has a zero name length; otherwise replay proceeds
(`none`). -/
def part000_xfs_attri_recover_check (attrp : xfs_attri_log_format) :
    Option Int :=
  if (¬ (attrp.alfi_op_flags = XFS_ATTR_OP_FLAGS_SET ∨
         attrp.alfi_op_flags = XFS_ATTR_OP_FLAGS_REMOVE)) ∨
     (attrp.alfi_value_len > XATTR_SIZE_MAX ∨
      attrp.alfi_name_len > XATTR_NAME_MAX) ∨
     (attrp.alfi_op_flags = XFS_ATTR_OP_FLAGS_SET ∧
      (attrp.alfi_value_len = 0 ∨ attrp.alfi_name_len = 0)) ∨
     (attrp.alfi_op_flags = XFS_ATTR_OP_FLAGS_REMOVE ∧
      attrp.alfi_name_len = 0) then
    some (-5)
  else
    none

/-- Zero-value SET intent format on which C5 as stated fails: name length
1, value length 0, op kind SET. -/
def cex_zero_value_set_fmt : xfs_attri_log_format :=
  { alfi_type := 0
    alfi_size := 0
    __pad := 0
    alfi_id := 1
    alfi_ino := 1
    alfi_op_flags := XFS_ATTR_OP_FLAGS_SET
    alfi_value_len := 0
    alfi_name_len := 1
    alfi_attr_flags := 0 }

/-- C5 counterexample: the recovery validation of the replayer cited from
src/unnamed/part_000 rejects a SET with zero value length (positive name
length, all other fields in range) with -EIO instead of accepting it, so
the claim that a zero-length-value SET is accepted by recovery validation
is false on that path. -/
theorem part000_rejects_zero_value_set :
    part000_xfs_attri_recover_check cex_zero_value_set_fmt = some (-5) ∧
    cex_zero_value_set_fmt.alfi_op_flags = XFS_ATTR_OP_FLAGS_SET ∧
    cex_zero_value_set_fmt.alfi_value_len = 0 ∧
    cex_zero_value_set_fmt.alfi_name_len ≠ 0 := by
  refine ⟨?_, rfl, rfl, by decide⟩
  simp [part000_xfs_attri_recover_check, cex_zero_value_set_fmt,
    XFS_ATTR_OP_FLAGS_SET]

/-- C5 amended: a SET with value length zero passes the current recovery
validation (xfs_attri_validate, 2021 revision) and its intent logs only a
format and a name iovec — no value region (nvecs = 2); a zero name length
is always invalid, for both the current validation and the part_000
recovery check; but the part_000 recovery check rejects a zero-value SET
with -EIO. -/
theorem set_zero_value_validity (mp : xfs_mount)
    (attrip : xfs_attri_log_item)
    (hset : attrip.attri_format.alfi_op_flags = XFS_ATTR_OP_FLAGS_SET)
    (hv0 : attrip.attri_format.alfi_value_len = 0)
    (hiv0 : attrip.attri_value_len = 0)
    (hn : attrip.attri_format.alfi_name_len ≠ 0)
    (hnmax : attrip.attri_format.alfi_name_len ≤ XATTR_NAME_MAX)
    (hino : xfs_verify_ino mp attrip.attri_format.alfi_ino = true)
    (hdel : xfs_hasdelattr mp = true) :
    xfs_attri_validate mp attrip = true ∧
    (xfs_attri_item_size attrip).1 = 2 ∧
    (∀ it2 : xfs_attri_log_item, it2.attri_format.alfi_name_len = 0 →
      xfs_attri_validate mp it2 = false) ∧
    (∀ f : xfs_attri_log_format, f.alfi_name_len = 0 →
      part000_xfs_attri_recover_check f = some (-5)) ∧
    part000_xfs_attri_recover_check attrip.attri_format = some (-5) := by
  refine ⟨?_, ?_, ?_, ?_, ?_⟩
  · exact (xfs_attri_validate_eq_true mp attrip).mpr
      ⟨Or.inl hset, by omega, hnmax, hn, hino, hdel⟩
  · simp [xfs_attri_item_size, hiv0]
  · intro it2 h0
    cases hv : xfs_attri_validate mp it2 with
    | false => rfl
    | true =>
      exfalso
      exact ((xfs_attri_validate_eq_true mp it2).mp hv).2.2.2.1 h0
  · intro f h0
    by_cases hop : f.alfi_op_flags = XFS_ATTR_OP_FLAGS_SET ∨
        f.alfi_op_flags = XFS_ATTR_OP_FLAGS_REMOVE
    · rcases hop with hs | hr
      · simp [part000_xfs_attri_recover_check, hs, h0]
      · by_cases hs : f.alfi_op_flags = XFS_ATTR_OP_FLAGS_SET
        · simp [part000_xfs_attri_recover_check, hs, h0]
        · simp only [part000_xfs_attri_recover_check]
          rw [if_pos (Or.inr (Or.inr (Or.inr ⟨hr, h0⟩)))]
    · simp [part000_xfs_attri_recover_check, hop]
  · simp only [part000_xfs_attri_recover_check]
    rw [if_pos (Or.inr (Or.inr (Or.inl ⟨hset, Or.inl hv0⟩)))]

/-- Concrete instantiation of the amended C5 theorem on a zero-value SET
intent with a one-byte name. -/
theorem set_zero_value_validity_witness :
    (let it : xfs_attri_log_item :=
      { attri_li_dirty := false, attri_refcount := 2, attri_flags := 0,
        attri_name_len := 1, attri_name := [65],
        attri_value_len := 0, attri_value := [],
        attri_format := cex_zero_value_set_fmt }
     xfs_attri_validate ⟨true, fun _ => true⟩ it = true ∧
     (xfs_attri_item_size it).1 = 2 ∧
     (∀ it2 : xfs_attri_log_item, it2.attri_format.alfi_name_len = 0 →
       xfs_attri_validate ⟨true, fun _ => true⟩ it2 = false) ∧
     (∀ f : xfs_attri_log_format, f.alfi_name_len = 0 →
       part000_xfs_attri_recover_check f = some (-5)) ∧
     part000_xfs_attri_recover_check it.attri_format = some (-5)) :=
  set_zero_value_validity ⟨true, fun _ => true⟩
    { attri_li_dirty := false, attri_refcount := 2, attri_flags := 0,
      attri_name_len := 1, attri_name := [65],
      attri_value_len := 0, attri_value := [],
      attri_format := cex_zero_value_set_fmt }
    rfl rfl rfl (by decide) (by decide) rfl rfl

/-- Log-region payload padded to the iovec length `n` with zero bytes, as
xlog_copy_iovec copies ATTR_NVEC_SIZE(len) bytes out of the buffer. -/
def pad_to (n : Nat) (b : List Nat) : List Nat :=
  b ++ List.replicate (n - b.length) 0

/-- One log iovec of an ATTRI as recovery sees it: the format region is the
format structure (ri_buf[region].i_addr cast) plus its byte length; name
and value regions are raw byte runs. -/
inductive xlog_region where
  | attri_format_reg (f : xfs_attri_log_format) (i_len : Nat)
  | attr_name_reg (b : List Nat) (i_len : Nat)
  | attr_value_reg (b : List Nat) (i_len : Nat)
deriving Repr, DecidableEq

/-- xfs_attri_item_format (2021 revision): stamps alfi_type/alfi_size into
the format (2 vecs, plus 1 when a value is present) and emits the format
iovec, the name iovec (ATTR_NVEC_SIZE-padded), and — only when
attri_value_len > 0 — the value iovec. -/
def xfs_attri_item_format (attrip : xfs_attri_log_item) :
    xfs_attri_log_item × List xlog_region :=
  let fmt :=
    { attrip.attri_format with
        alfi_type := XFS_LI_ATTRI
        alfi_size := 1 + 1 + (if attrip.attri_value_len > 0 then 1 else 0) }
  let attrip' := { attrip with attri_format := fmt }
  (attrip',
   [xlog_region.attri_format_reg fmt sizeof_xfs_attri_log_format,
    xlog_region.attr_name_reg
      (pad_to (ATTR_NVEC_SIZE attrip.attri_name_len) attrip.attri_name)
      (ATTR_NVEC_SIZE attrip.attri_name_len)] ++
   (if attrip.attri_value_len > 0 then
     [xlog_region.attr_value_reg
       (pad_to (ATTR_NVEC_SIZE attrip.attri_value_len) attrip.attri_value)
       (ATTR_NVEC_SIZE attrip.attri_value_len)]
    else []))

/-- The format region of a recovered item: ri_buf[0] as the pass-2 routine
reads it (struct pointer plus region byte length). -/
structure xfs_log_iovec where
  i_addr : xfs_attri_log_format
  i_len : Nat
deriving Repr, DecidableEq

/-- xfs_attri_copy_format (2021 revision): -EFSCORRUPTED unless the region
length equals sizeof(struct xfs_attri_log_format); otherwise copies the
whole structure. -/
def xfs_attri_copy_format (buf : xfs_log_iovec) :
    Except Int xfs_attri_log_format :=
  if buf.i_len ≠ sizeof_xfs_attri_log_format then
    Except.error (-EFSCORRUPTED)
  else
    Except.ok buf.i_addr

/-- Outcome of xlog_recover_attri_commit_pass2: the returned error, how
many in-memory intents were built (xfs_attri_init calls), and the item
inserted into the AIL, if any (with the log reference already dropped). -/
structure pass2_result where
  error : Int
  attri_inits : Nat
  inserted : Option xfs_attri_log_item
deriving Repr, DecidableEq

/-- xlog_recover_attri_commit_pass2 (2021 revision): validates the format
region (zero padding, nonzero name length, no REMOVE with a value) before
building anything; then builds the item, copies the format (rejecting a
bad region length and freeing the item), copies name_len bytes of name and
— when value_len > 0 — value_len bytes of value from the next regions,
inserts the item into the AIL at the record's lsn and drops the ATTRI
reference (2 → 1). -/
def xlog_recover_attri_commit_pass2 (mp : xfs_mount) (alloc_addr : Nat)
    (buf0 : xfs_log_iovec) (buf1 buf2 : List Nat) : pass2_result :=
  let attri_formatp := buf0.i_addr
  if attri_formatp.__pad ≠ 0 ∨ attri_formatp.alfi_name_len = 0 ∨
     (attri_formatp.alfi_op_flags = XFS_ATTR_OP_FLAGS_REMOVE ∧
      attri_formatp.alfi_value_len ≠ 0) then
    { error := -EFSCORRUPTED, attri_inits := 0, inserted := none }
  else
    let attrip := xfs_attri_init mp alloc_addr
    match xfs_attri_copy_format buf0 with
    | Except.error e => { error := e, attri_inits := 1, inserted := none }
    | Except.ok fmt =>
      let attrip :=
        { attrip with
            attri_format := fmt
            attri_name_len := attri_formatp.alfi_name_len
            attri_value_len := attri_formatp.alfi_value_len }
      let attrip :=
        { attrip with attri_name := buf1.take attrip.attri_name_len }
      let attrip :=
        if attrip.attri_value_len > 0 then
          { attrip with attri_value := buf2.take attrip.attri_value_len }
        else attrip
      { error := 0, attri_inits := 1,
        inserted := some { attrip with attri_refcount := 1 } }

/-- Encode of an intent followed by the pass-2 decode of its own iovecs:
region 0 is the format region, region 1 the name run, region 2 the value
run when present. -/
def attri_encode_then_decode (mp : xfs_mount) (alloc_addr : Nat)
    (attrip : xfs_attri_log_item) : pass2_result :=
  match (xfs_attri_item_format attrip).2 with
  | [xlog_region.attri_format_reg f l, xlog_region.attr_name_reg nb _] =>
      xlog_recover_attri_commit_pass2 mp alloc_addr ⟨f, l⟩ nb []
  | [xlog_region.attri_format_reg f l, xlog_region.attr_name_reg nb _,
     xlog_region.attr_value_reg vb _] =>
      xlog_recover_attri_commit_pass2 mp alloc_addr ⟨f, l⟩ nb vb
  | _ => { error := -EFSCORRUPTED, attri_inits := 0, inserted := none }

/-- C9: the pass-2 decoder rejects with -EFSCORRUPTED, before any
in-memory intent is built or inserted into the AIL, a format region with
nonzero padding, zero name length, or a REMOVE op with a nonzero value
length; and likewise rejects (building at most a transient, freed item,
inserting nothing) a format region whose byte length differs from
sizeof(struct xfs_attri_log_format). -/
theorem pass2_rejects_corrupt_format :
    (∀ (mp : xfs_mount) (addr : Nat) (f : xfs_attri_log_format)
       (l : Nat) (nb vb : List Nat),
      (f.__pad ≠ 0 ∨ f.alfi_name_len = 0 ∨
       (f.alfi_op_flags = XFS_ATTR_OP_FLAGS_REMOVE ∧
        f.alfi_value_len ≠ 0)) →
      xlog_recover_attri_commit_pass2 mp addr ⟨f, l⟩ nb vb =
        { error := -EFSCORRUPTED, attri_inits := 0, inserted := none }) ∧
    (∀ (mp : xfs_mount) (addr : Nat) (f : xfs_attri_log_format)
       (l : Nat) (nb vb : List Nat),
      l ≠ sizeof_xfs_attri_log_format →
      (xlog_recover_attri_commit_pass2 mp addr ⟨f, l⟩ nb vb).error =
        -EFSCORRUPTED ∧
      (xlog_recover_attri_commit_pass2 mp addr ⟨f, l⟩ nb vb).inserted =
        none) := by
  constructor
  · intro mp addr f l nb vb hbad
    simp only [xlog_recover_attri_commit_pass2]
    rw [if_pos hbad]
  · intro mp addr f l nb vb hlen
    by_cases hbad : f.__pad ≠ 0 ∨ f.alfi_name_len = 0 ∨
        (f.alfi_op_flags = XFS_ATTR_OP_FLAGS_REMOVE ∧ f.alfi_value_len ≠ 0)
    · simp only [xlog_recover_attri_commit_pass2]
      rw [if_pos hbad]
      trivial
    · simp only [xlog_recover_attri_commit_pass2]
      rw [if_neg hbad]
      simp only [xfs_attri_copy_format, if_pos hlen]
      trivial

/-- Concrete instantiation of the C9 theorem: a padded format region and a
short format region are both rejected without an AIL insertion. -/
theorem pass2_rejects_corrupt_format_witness :
    ({ cex_zero_value_set_fmt with __pad := 5 }.__pad ≠ 0 ∨
     { cex_zero_value_set_fmt with __pad := 5 }.alfi_name_len = 0 ∨
     ({ cex_zero_value_set_fmt with __pad := 5 }.alfi_op_flags =
        XFS_ATTR_OP_FLAGS_REMOVE ∧
      { cex_zero_value_set_fmt with __pad := 5 }.alfi_value_len ≠ 0)) ∧
    xlog_recover_attri_commit_pass2 ⟨true, fun _ => true⟩ 3
      ⟨{ cex_zero_value_set_fmt with __pad := 5 },
        sizeof_xfs_attri_log_format⟩ [65] [] =
      { error := -EFSCORRUPTED, attri_inits := 0, inserted := none } ∧
    (39 : Nat) ≠ sizeof_xfs_attri_log_format ∧
    (xlog_recover_attri_commit_pass2 ⟨true, fun _ => true⟩ 3
      ⟨cex_zero_value_set_fmt, 39⟩ [65] []).error = -EFSCORRUPTED ∧
    (xlog_recover_attri_commit_pass2 ⟨true, fun _ => true⟩ 3
      ⟨cex_zero_value_set_fmt, 39⟩ [65] []).inserted = none := by
  refine ⟨Or.inl (by decide), ?_, by decide, ?_, ?_⟩
  · exact pass2_rejects_corrupt_format.1 ⟨true, fun _ => true⟩ 3
      { cex_zero_value_set_fmt with __pad := 5 }
      sizeof_xfs_attri_log_format [65] [] (Or.inl (by decide))
  · exact (pass2_rejects_corrupt_format.2 ⟨true, fun _ => true⟩ 3
      cex_zero_value_set_fmt 39 [65] [] (by decide)).1
  · exact (pass2_rejects_corrupt_format.2 ⟨true, fun _ => true⟩ 3
      cex_zero_value_set_fmt 39 [65] [] (by decide)).2

/-- Taking back exactly the payload length from a padded log region yields
the original payload. -/
theorem pad_to_take (n : Nat) (b : List Nat) : (pad_to n b).take b.length = b := by
  simp [pad_to, List.take_left]

/-- C4 amended: for every intent with a positive name length whose
in-memory buffers match its recorded lengths, whose format padding is zero
(as every intent built by xfs_attri_init has), and which is not a REMOVE
carrying a nonzero value length (which pass-2 rejects as corrupt),
encoding via xfs_attri_item_format and decoding the iovecs via
xlog_recover_attri_commit_pass2 (with xfs_attri_copy_format) succeeds and
reproduces the owner id, op kind, value length, name length, attr flags,
and the exact name and value bytes. -/
theorem attri_encode_decode_roundtrip (mp : xfs_mount) (addr : Nat)
    (attrip : xfs_attri_log_item)
    (hnm : attrip.attri_name.length = attrip.attri_name_len)
    (hvm : attrip.attri_value.length = attrip.attri_value_len)
    (hfn : attrip.attri_format.alfi_name_len = attrip.attri_name_len)
    (hfv : attrip.attri_format.alfi_value_len = attrip.attri_value_len)
    (hn0 : 0 < attrip.attri_name_len)
    (hpad : attrip.attri_format.__pad = 0)
    (hrm : ¬ (attrip.attri_format.alfi_op_flags = XFS_ATTR_OP_FLAGS_REMOVE ∧
              attrip.attri_format.alfi_value_len ≠ 0)) :
    (attri_encode_then_decode mp addr attrip).error = 0 ∧
    (attri_encode_then_decode mp addr attrip).attri_inits = 1 ∧
    ((attri_encode_then_decode mp addr attrip).inserted.map fun dec =>
      (dec.attri_format.alfi_ino, dec.attri_format.alfi_op_flags,
       dec.attri_format.alfi_value_len, dec.attri_format.alfi_name_len,
       dec.attri_format.alfi_attr_flags, dec.attri_name, dec.attri_value)) =
    some (attrip.attri_format.alfi_ino, attrip.attri_format.alfi_op_flags,
       attrip.attri_format.alfi_value_len, attrip.attri_format.alfi_name_len,
       attrip.attri_format.alfi_attr_flags, attrip.attri_name,
       attrip.attri_value) := by
  have hfn0 : attrip.attri_format.alfi_name_len ≠ 0 := by omega
  have hrm2 : ¬ (attrip.attri_format.alfi_op_flags = XFS_ATTR_OP_FLAGS_REMOVE ∧
      ¬ attrip.attri_value_len = 0) := fun h => hrm ⟨h.1, by omega⟩
  have htn : (pad_to (ATTR_NVEC_SIZE attrip.attri_name_len)
      attrip.attri_name).take attrip.attri_format.alfi_name_len =
      attrip.attri_name := by
    rw [hfn, ← hnm]
    exact pad_to_take _ _
  have htn2 : (pad_to (ATTR_NVEC_SIZE attrip.attri_name_len)
      attrip.attri_name).take attrip.attri_name_len =
      attrip.attri_name := by
    rw [← hnm]
    exact pad_to_take _ _
  by_cases hvp : attrip.attri_value_len > 0
  · have htv : (pad_to (ATTR_NVEC_SIZE attrip.attri_value_len)
        attrip.attri_value).take attrip.attri_format.alfi_value_len =
        attrip.attri_value := by
      rw [hfv, ← hvm]
      exact pad_to_take _ _
    have htv2 : (pad_to (ATTR_NVEC_SIZE attrip.attri_value_len)
        attrip.attri_value).take attrip.attri_value_len =
        attrip.attri_value := by
      rw [← hvm]
      exact pad_to_take _ _
    simp only [attri_encode_then_decode, xfs_attri_item_format, if_pos hvp,
      List.cons_append, List.nil_append]
    simp only [xlog_recover_attri_commit_pass2, xfs_attri_copy_format,
      xfs_attri_init]
    simp [hpad, hfn0, hrm, hrm2, hfv, hvp, htn, htv, htv2, htn2,
      sizeof_xfs_attri_log_format]
  · have hv0 : attrip.attri_value_len = 0 := by omega
    have hvnil : attrip.attri_value = [] :=
      List.eq_nil_of_length_eq_zero (by omega)
    simp only [attri_encode_then_decode, xfs_attri_item_format, if_neg hvp,
      List.cons_append, List.nil_append, List.append_nil]
    simp only [xlog_recover_attri_commit_pass2, xfs_attri_copy_format,
      xfs_attri_init]
    simp [hpad, hfn0, hrm, hrm2, hfv, hv0, htn, htn2, hvnil,
      sizeof_xfs_attri_log_format]

/-- Concrete instantiation of the amended C4 theorem on a one-byte-name,
one-byte-value SET intent. -/
theorem attri_encode_decode_roundtrip_witness :
    (let it : xfs_attri_log_item :=
      { attri_li_dirty := false, attri_refcount := 2, attri_flags := 0,
        attri_name_len := 1, attri_name := [65],
        attri_value_len := 1, attri_value := [7],
        attri_format :=
          { alfi_type := 0, alfi_size := 0, __pad := 0, alfi_id := 1,
            alfi_ino := 42, alfi_op_flags := XFS_ATTR_OP_FLAGS_SET,
            alfi_value_len := 1, alfi_name_len := 1, alfi_attr_flags := 4 } }
     (attri_encode_then_decode ⟨true, fun _ => true⟩ 9 it).error = 0 ∧
     (attri_encode_then_decode ⟨true, fun _ => true⟩ 9 it).attri_inits = 1 ∧
     ((attri_encode_then_decode ⟨true, fun _ => true⟩ 9 it).inserted.map
        fun dec =>
       (dec.attri_format.alfi_ino, dec.attri_format.alfi_op_flags,
        dec.attri_format.alfi_value_len, dec.attri_format.alfi_name_len,
        dec.attri_format.alfi_attr_flags, dec.attri_name, dec.attri_value)) =
     some (it.attri_format.alfi_ino, it.attri_format.alfi_op_flags,
        it.attri_format.alfi_value_len, it.attri_format.alfi_name_len,
        it.attri_format.alfi_attr_flags, it.attri_name, it.attri_value)) :=
  attri_encode_decode_roundtrip ⟨true, fun _ => true⟩ 9
    { attri_li_dirty := false, attri_refcount := 2, attri_flags := 0,
      attri_name_len := 1, attri_name := [65],
      attri_value_len := 1, attri_value := [7],
      attri_format :=
        { alfi_type := 0, alfi_size := 0, __pad := 0, alfi_id := 1,
          alfi_ino := 42, alfi_op_flags := XFS_ATTR_OP_FLAGS_SET,
          alfi_value_len := 1, alfi_name_len := 1, alfi_attr_flags := 4 } }
    rfl rfl rfl rfl (by decide) rfl (by decide)

/-- REMOVE intent carrying a one-byte value, on which C4 as stated fails:
pass-2 decode rejects it as corrupt instead of reproducing it. -/
def cex_remove_with_value : xfs_attri_log_item :=
  { attri_li_dirty := false, attri_refcount := 2, attri_flags := 0,
    attri_name_len := 1, attri_name := [65],
    attri_value_len := 1, attri_value := [7],
    attri_format :=
      { alfi_type := 0, alfi_size := 0, __pad := 0, alfi_id := 1,
        alfi_ino := 42, alfi_op_flags := XFS_ATTR_OP_FLAGS_REMOVE,
        alfi_value_len := 1, alfi_name_len := 1, alfi_attr_flags := 0 } }

/-- C4 counterexample: an intent with positive name length (a REMOVE whose
value length is 1) encodes, but decoding its own iovecs returns
-EFSCORRUPTED and inserts nothing, so encode→decode does not reproduce
this record. -/
theorem attri_encode_decode_remove_value_cex :
    cex_remove_with_value.attri_name_len > 0 ∧
    attri_encode_then_decode ⟨true, fun _ => true⟩ 3 cex_remove_with_value =
      { error := -EFSCORRUPTED, attri_inits := 0, inserted := none } := by
  constructor
  · decide
  · rfl

/-- Result of xfs_attri_item_relog: the fresh transaction's flag word, the
done item logged against the prior intent, and the new intent. -/
structure relog_result where
  tp_t_flags : Nat
  attrdp : xfs_attrd_log_item
  new_attrip : xfs_attri_log_item
deriving Repr, DecidableEq

/-- xfs_attri_item_relog (2021 revision): marks the fresh transaction
dirty, builds and dirties a done item against the old intent, initializes
a new intent (buffer sized name_len + value_len), copies the five format
fields, memcpy's name_len bytes of name and — when value_len > 0 —
value_len bytes of value from the old intent's buffers, adds the new
intent to the transaction and marks it dirty. -/
def xfs_attri_item_relog (old_attrip : xfs_attri_log_item)
    (tp_t_flags : Nat) (mp : xfs_mount) (alloc_addr : Nat) : relog_result :=
  let old_attrp := old_attrip.attri_format
  let tp_t_flags := tp_t_flags ||| XFS_TRANS_DIRTY
  let attrdp := xfs_trans_get_attrd old_attrip
  let attrdp := { attrdp with attrd_li_dirty := true }
  let new_attrip := xfs_attri_init mp alloc_addr
  let new_attrip :=
    { new_attrip with
        attri_format :=
          { new_attrip.attri_format with
              alfi_ino := old_attrp.alfi_ino
              alfi_op_flags := old_attrp.alfi_op_flags
              alfi_value_len := old_attrp.alfi_value_len
              alfi_name_len := old_attrp.alfi_name_len
              alfi_attr_flags := old_attrp.alfi_attr_flags } }
  let new_attrip :=
    { new_attrip with
        attri_name_len := old_attrip.attri_name_len
        attri_name := old_attrip.attri_name.take old_attrip.attri_name_len }
  let new_attrip :=
    { new_attrip with attri_value_len := old_attrip.attri_value_len }
  let new_attrip :=
    if new_attrip.attri_value_len > 0 then
      { new_attrip with
          attri_value :=
            old_attrip.attri_value.take new_attrip.attri_value_len }
    else new_attrip
  let new_attrip := { new_attrip with attri_li_dirty := true }
  { tp_t_flags := tp_t_flags, attrdp := attrdp, new_attrip := new_attrip }

/-- C6: relogging an intent whose buffers match their recorded lengths
yields a new intent whose five format fields and whose name and value
bytes equal the old intent's byte for byte, with the done record built
against the prior intent (it stores the old alfi_id) and both the done
record and the new intent marked dirty in the now-dirty fresh
transaction. -/
theorem attri_relog_preserves_payload (old_attrip : xfs_attri_log_item)
    (tp_t_flags : Nat) (mp : xfs_mount) (alloc_addr : Nat)
    (hnm : old_attrip.attri_name.length = old_attrip.attri_name_len)
    (hvm : old_attrip.attri_value.length = old_attrip.attri_value_len) :
    (let r := xfs_attri_item_relog old_attrip tp_t_flags mp alloc_addr
     r.new_attrip.attri_format.alfi_ino = old_attrip.attri_format.alfi_ino ∧
     r.new_attrip.attri_format.alfi_op_flags =
       old_attrip.attri_format.alfi_op_flags ∧
     r.new_attrip.attri_format.alfi_value_len =
       old_attrip.attri_format.alfi_value_len ∧
     r.new_attrip.attri_format.alfi_name_len =
       old_attrip.attri_format.alfi_name_len ∧
     r.new_attrip.attri_format.alfi_attr_flags =
       old_attrip.attri_format.alfi_attr_flags ∧
     r.new_attrip.attri_name_len = old_attrip.attri_name_len ∧
     r.new_attrip.attri_name = old_attrip.attri_name ∧
     r.new_attrip.attri_value_len = old_attrip.attri_value_len ∧
     r.new_attrip.attri_value = old_attrip.attri_value ∧
     r.attrdp.attrd_format.alfd_alf_id = old_attrip.attri_format.alfi_id ∧
     r.attrdp.attrd_li_dirty = true ∧
     r.new_attrip.attri_li_dirty = true ∧
     xfs_trans_is_dirty r.tp_t_flags = true) := by
  have htn : old_attrip.attri_name.take old_attrip.attri_name_len =
      old_attrip.attri_name := by
    rw [← hnm]
    exact List.take_length _
  by_cases hvp : old_attrip.attri_value_len > 0
  · have htv : old_attrip.attri_value.take old_attrip.attri_value_len =
        old_attrip.attri_value := by
      rw [← hvm]
      exact List.take_length _
    simp [xfs_attri_item_relog, xfs_attri_init, xfs_trans_get_attrd,
      xfs_trans_is_dirty, Nat.testBit_or, XFS_TRANS_DIRTY, hvp, htn, htv]
  · have hvnil : old_attrip.attri_value = [] :=
      List.eq_nil_of_length_eq_zero (by omega)
    simp [xfs_attri_item_relog, xfs_attri_init, xfs_trans_get_attrd,
      xfs_trans_is_dirty, Nat.testBit_or, XFS_TRANS_DIRTY, hvp, htn, hvnil]

/-- Concrete instantiation of the C6 theorem on a one-byte-name,
two-byte-value intent. -/
theorem attri_relog_preserves_payload_witness :
    (let old_it : xfs_attri_log_item :=
      { attri_li_dirty := true, attri_refcount := 1, attri_flags := 0,
        attri_name_len := 1, attri_name := [65],
        attri_value_len := 2, attri_value := [7, 8],
        attri_format :=
          { alfi_type := 0, alfi_size := 0, __pad := 0, alfi_id := 5,
            alfi_ino := 42, alfi_op_flags := XFS_ATTR_OP_FLAGS_SET,
            alfi_value_len := 2, alfi_name_len := 1, alfi_attr_flags := 4 } }
     let r := xfs_attri_item_relog old_it 0 ⟨true, fun _ => true⟩ 11
     r.new_attrip.attri_format.alfi_ino = old_it.attri_format.alfi_ino ∧
     r.new_attrip.attri_format.alfi_op_flags =
       old_it.attri_format.alfi_op_flags ∧
     r.new_attrip.attri_format.alfi_value_len =
       old_it.attri_format.alfi_value_len ∧
     r.new_attrip.attri_format.alfi_name_len =
       old_it.attri_format.alfi_name_len ∧
     r.new_attrip.attri_format.alfi_attr_flags =
       old_it.attri_format.alfi_attr_flags ∧
     r.new_attrip.attri_name_len = old_it.attri_name_len ∧
     r.new_attrip.attri_name = old_it.attri_name ∧
     r.new_attrip.attri_value_len = old_it.attri_value_len ∧
     r.new_attrip.attri_value = old_it.attri_value ∧
     r.attrdp.attrd_format.alfd_alf_id = old_it.attri_format.alfi_id ∧
     r.attrdp.attrd_li_dirty = true ∧
     r.new_attrip.attri_li_dirty = true ∧
     xfs_trans_is_dirty r.tp_t_flags = true) :=
  attri_relog_preserves_payload
    { attri_li_dirty := true, attri_refcount := 1, attri_flags := 0,
      attri_name_len := 1, attri_name := [65],
      attri_value_len := 2, attri_value := [7, 8],
      attri_format :=
        { alfi_type := 0, alfi_size := 0, __pad := 0, alfi_id := 5,
          alfi_ino := 42, alfi_op_flags := XFS_ATTR_OP_FLAGS_SET,
          alfi_value_len := 2, alfi_name_len := 1, alfi_attr_flags := 4 } }
    0 ⟨true, fun _ => true⟩ 11 rfl rfl

/-- Replay loop of the older xfs_attri_item_recover (second revision in
xfs_attr_item.c, the do-while over xfs_trans_attr): given the successive
step outcomes, returns (number of xfs_trans_roll calls, final step error,
whether the abort path was taken).  Each iteration consumes one outcome;
a non-EAGAIN failure aborts before the roll; otherwise the code logs the
inode, rolls the transaction (modelled as succeeding) and rejoins the
inode and any held leaf buffer, looping again only on -EAGAIN. -/
def v2_recover_loop : List Int → Nat → Nat × Int × Bool
  | [], rolls => (rolls, 0, false)
  | e :: rest, rolls =>
    if e ≠ 0 ∧ e ≠ -EAGAIN then
      (rolls, e, true)
    else if e = -EAGAIN then
      v2_recover_loop rest (rolls + 1)
    else
      (rolls + 1, e, false)

/-- Observable trace of the older xfs_attri_item_recover from the
exclusive inode lock acquisition through commit/cancel and unlock. -/
structure v2_recover_trace where
  ilocks : Nat
  iunlocks : Nat
  rolls : Nat
  error : Int
  canceled : Bool
  committed : Bool
deriving Repr, DecidableEq

/-- Lock-and-loop section of the older xfs_attri_item_recover (second
revision in xfs_attr_item.c): xfs_ilock(XFS_ILOCK_EXCL) once, ijoin, the
do-while of xfs_trans_attr with a roll per iteration, then
xfs_trans_commit on loop exit or xfs_trans_cancel on the abort path, and
one xfs_iunlock either way. -/
def v2_xfs_attri_item_recover (steps : List Int) : v2_recover_trace :=
  let r := v2_recover_loop steps 0
  if r.2.2 then
    { ilocks := 1, iunlocks := 1, rolls := r.1, error := r.2.1,
      canceled := true, committed := false }
  else
    { ilocks := 1, iunlocks := 1, rolls := r.1, error := r.2.1,
      canceled := false, committed := true }

/-- The roll loop on a schedule of n RETRYs followed by success performs
n + 1 rolls (the loop body rolls after every step call, including the
final successful one). -/
theorem v2_recover_loop_replicate (n : Nat) (rolls : Nat) :
    v2_recover_loop (List.replicate n (-EAGAIN) ++ [0]) rolls =
      (rolls + n + 1, 0, false) := by
  induction n generalizing rolls with
  | zero => simp [v2_recover_loop]
  | succ k ih =>
    rw [List.replicate_succ, List.cons_append]
    simp only [v2_recover_loop]
    rw [if_neg (by simp), if_pos trivial, ih]
    congr 1
    omega

/-- C7 counterexample: with the step function forced to RETRY exactly once
before succeeding (N = 1), the recovery replayer performs 2 transaction
rolls, not 1 — the loop also rolls after the final successful step. -/
theorem v2_recover_rolls_cex :
    (v2_xfs_attri_item_recover
      (List.replicate 1 (-EAGAIN) ++ [0])).rolls = 2 ∧
    (v2_xfs_attri_item_recover
      (List.replicate 1 (-EAGAIN) ++ [0])).rolls ≠ 1 ∧
    (v2_xfs_attri_item_recover
      (List.replicate 1 (-EAGAIN) ++ [0])).ilocks = 1 := by
  refine ⟨?_, ?_, ?_⟩ <;> decide

/-- C7 amended: when the step function returns RETRY exactly N times
before succeeding, the recovery replayer performs exactly N + 1
transaction rolls (one after every step invocation, the final successful
one included), acquires the owner inode's exclusive lock exactly once for
the whole operation (and releases it once), and commits without
cancelling. -/
theorem v2_recover_rolls_count (n : Nat) :
    v2_xfs_attri_item_recover (List.replicate n (-EAGAIN) ++ [0]) =
      { ilocks := 1, iunlocks := 1, rolls := n + 1, error := 0,
        canceled := false, committed := true } := by
  simp [v2_xfs_attri_item_recover, v2_recover_loop_replicate n 0]

end Xfs
